import Mathlib

/-!
Shallow embedding of the ChromaDB Rust client session layer (`src/client.rs`):
the session client `ChromaClient`, its mutex-guarded collection cache, and the
collection lifecycle operations.  Asynchronous methods are modeled as pure
state-passing functions over a network oracle; every operation additionally
returns the list of network requests it issued, so that no-network-call
properties are statable.  External collaborators whose sources are absent from
the repository snapshot (the `commons`, `config` and collection modules) are
modeled from the spec, as marked in their doc comments.
-/

namespace Chroma

/-- Header selection for token authentication (`ChromaTokenHeader` in the api
module). -/
inductive ChromaTokenHeader where
  | authorization
  | xChromaToken
  deriving DecidableEq

/-- Authentication method (`ChromaAuthMethod` in the api module): no
authentication, or token authentication with a header selection. -/
inductive ChromaAuthMethod where
  | none
  | tokenAuth (header : ChromaTokenHeader) (token : String)
  deriving DecidableEq

/-- Modelled from the spec: metadata is an optional key-to-value mapping whose
values the session layer never inspects (the `Metadata` type lives in the
absent `commons` module); values are modeled as strings. -/
abbrev Metadata := List (String × String)

/-- Modelled from the spec: the wire-format key/value mapping produced by the
configuration translator (a `serde_json::Map` in the absent `config`
module). -/
abbrev ConfigurationMap := List (String × String)

/-- Error taxonomy of the session layer (the `commons` error type is absent
from the sources; modeled from the spec, section 7). -/
inductive ChromaError where
  | validationError (msg : String)
  | conflictError (msg : String)
  | notFoundError (msg : String)
  | configurationError (msg : String)
  | transportError (msg : String)
  | decodeError (msg : String)
  deriving DecidableEq

/-- Decidable equality for `Except`, needed to evaluate properties of results
on concrete inputs. -/
def exceptDecEq {ε α : Type} [DecidableEq ε] [DecidableEq α] :
    (a b : Except ε α) → Decidable (a = b)
  | .error a, .error b =>
      if h : a = b then .isTrue (by rw [h])
      else .isFalse (by intro hc; cases hc; exact h rfl)
  | .error _, .ok _ => .isFalse (by intro hc; cases hc)
  | .ok _, .error _ => .isFalse (by intro hc; cases hc)
  | .ok a, .ok b =>
      if h : a = b then .isTrue (by rw [h])
      else .isFalse (by intro hc; cases hc; exact h rfl)

instance {ε α : Type} [DecidableEq ε] [DecidableEq α] : DecidableEq (Except ε α) :=
  exceptDecEq

/-- Modelled from the spec: `CreateCollectionConfiguration` (absent `config`
module) is a black-box translator from a caller-supplied configuration value
to a wire-format mapping, failing if the value is invalid.  A value is modeled
by the outcome of its translation, the only thing the session layer ever
observes about it. -/
structure CreateCollectionConfiguration where
  translation : Except ChromaError ConfigurationMap
  deriving DecidableEq

/-- The `to_configuration` call performed by `create_collection`. -/
def CreateCollectionConfiguration.to_configuration
    (c : CreateCollectionConfiguration) : Except ChromaError ConfigurationMap :=
  c.translation

/-- The transport client (`APIClientAsync`, external collaborator): holds the
resolved endpoint and the session scope fixed at construction.  A value of
this type stands for the shared `Arc<APIClientAsync>`; the transport is never
mutated after construction, so value equality models reference sharing. -/
structure APIClientAsync where
  endpoint : String
  auth : ChromaAuthMethod
  tenant : String
  database : String
  connections : Nat
  deriving DecidableEq

/-- Modelled from the spec: a collection handle (`ChromaCollection`, absent
collection module) carries name, identifier, metadata, configuration, and a
transport reference rewired after deserialization. -/
structure ChromaCollection where
  name : String
  id : String
  metadata : Option Metadata
  configuration : ConfigurationMap
  api : APIClientAsync
  deriving DecidableEq

/-- The JSON body `{name, metadata, get_or_create, configuration}` built by
`create_collection`. -/
structure CreateRequestBody where
  name : String
  metadata : Option Metadata
  get_or_create : Bool
  configuration : ConfigurationMap
  deriving DecidableEq

/-- A network request issued to the transport client.  Operations return the
list of requests they issued. -/
inductive Request where
  | postDatabase (path : String) (body : CreateRequestBody)
  | getDatabase (path : String)
  | deleteDatabase (path : String)
  | get (path : String)
  deriving DecidableEq

/-- Heartbeat response envelope: a single `u64` field keyed by the literal
string "nanosecond heartbeat".  The value is a decoded unsigned 64-bit
integer; no arithmetic is performed on it, so it is modeled as a natural
number. -/
structure HeartbeatResponse where
  heartbeat : Nat
  deriving DecidableEq

/-- The network oracle: the transport client's responses together with their
decoding (`response.json::<T>()`), one field per request/decode shape the
session layer uses.  An `Except.error` covers transport and decode failures
alike; in either case the request was issued. -/
structure NetOracle where
  postDatabase : String → CreateRequestBody → Except ChromaError ChromaCollection
  getDatabaseList : String → Except ChromaError (List ChromaCollection)
  getDatabaseOne : String → Except ChromaError ChromaCollection
  deleteDatabase : String → Except ChromaError Unit
  getHeartbeat : String → Except ChromaError HeartbeatResponse

/-- A mutex together with its poisoning flag (`std::sync::Mutex`):
`.lock().unwrap()` panics when the mutex is poisoned. -/
structure MutexState (α : Type) where
  poisoned : Bool
  value : α
  deriving DecidableEq

/-- Outcome of an operation: `fatal` models a panic (the `unwrap` of a
poisoned lock aborting), `ok` a normal return. -/
inductive Outcome (α : Type) where
  | fatal
  | ok (a : α)
  deriving DecidableEq

/-- `self.collection_cache.lock().unwrap()`: the guarded value, or a panic if
the mutex is poisoned. -/
def MutexState.lockUnwrap {α : Type} (m : MutexState α) : Outcome α :=
  if m.poisoned then .fatal else .ok m.value

/-- The session client (`ChromaClient`): a shared transport reference and the
lock-guarded name-to-handle cache
(`Mutex<HashMap<String, ChromaCollection>>`, the map modeled as an
association list). -/
structure ChromaClient where
  api : APIClientAsync
  collection_cache : MutexState (List (String × ChromaCollection))
  deriving DecidableEq

/-- The options for instantiating `ChromaClient`. -/
structure ChromaClientOptions where
  url : Option String
  auth : ChromaAuthMethod
  tenant : String
  database : String
  connections : Nat
  deriving DecidableEq

/-- `Default for ChromaClientOptions`. -/
def ChromaClientOptions.default : ChromaClientOptions :=
  { url := Option.none, auth := ChromaAuthMethod.none,
    tenant := "default_tenant", database := "default_database",
    connections := 4 }

/-- `DEFAULT_ENDPOINT` constant. -/
def DEFAULT_ENDPOINT : String := "http://localhost:8000"

/-- The process environment (`std::env::var`), a partial map from variable
names to values. -/
structure Env where
  var : String → Option String

/-- Endpoint resolution in `ChromaClient::new`: the explicit `url` if given,
else `CHROMA_HOST`, else `CHROMA_URL`, else `DEFAULT_ENDPOINT`. -/
def resolveEndpoint (url : Option String) (env : Env) : String :=
  match url with
  | some url => url
  | none => (env.var "CHROMA_HOST").getD ((env.var "CHROMA_URL").getD DEFAULT_ENDPOINT)

/-- `ChromaClient::new`: resolve the endpoint, construct the transport client
with (endpoint, auth, tenant, database, connections), and initialize an empty
cache. -/
def ChromaClient.new (options : ChromaClientOptions) (env : Env) : ChromaClient :=
  { api := { endpoint := resolveEndpoint options.url env, auth := options.auth,
             tenant := options.tenant, database := options.database,
             connections := options.connections },
    collection_cache := { poisoned := false, value := [] } }

/-- `HashMap::entry(name).or_insert(v)`: insert only if no entry for the key
exists; an existing entry is left unchanged. -/
def entryOrInsert (cache : List (String × ChromaCollection)) (name : String)
    (collection : ChromaCollection) : List (String × ChromaCollection) :=
  match cache.lookup name with
  | some _ => cache
  | none => (name, collection) :: cache

/-- The `let config = match configuration {...}` step of `create_collection`:
translate the optional configuration to its wire form, an empty map when
absent. -/
def translateConfiguration (configuration : Option CreateCollectionConfiguration) :
    Except ChromaError ConfigurationMap :=
  match configuration with
  | some config => config.to_configuration
  | none => Except.ok []

/-- The tail of `ChromaClient::create_collection` after the `get_or_create`
cache short-circuit: translate the configuration, build the request body, post
it, rewire the decoded handle's transport reference to the session's shared
transport, and insert into the cache only if no entry for the name exists.
Returns (result, new client state, requests issued). -/
def ChromaClient.create_collection_request (self : ChromaClient) (name : String)
    (metadata : Option Metadata)
    (configuration : Option CreateCollectionConfiguration)
    (get_or_create : Bool) (net : NetOracle) :
    Outcome (Except ChromaError ChromaCollection × ChromaClient × List Request) :=
  match translateConfiguration configuration with
  | .error e => .ok (.error e, self, [])
  | .ok config =>
    let request_body : CreateRequestBody :=
      { name := name, metadata := metadata, get_or_create := get_or_create,
        configuration := config }
    match net.postDatabase "/collections" request_body with
    | .error e => .ok (.error e, self, [Request.postDatabase "/collections" request_body])
    | .ok decoded =>
      let collection : ChromaCollection := { decoded with api := self.api }
      match self.collection_cache.lockUnwrap with
      | .fatal => .fatal
      | .ok cache =>
        .ok (.ok collection,
             { self with collection_cache :=
                 { self.collection_cache with
                   value := entryOrInsert cache name collection } },
             [Request.postDatabase "/collections" request_body])

/-- `ChromaClient::create_collection`: when `get_or_create` is set, first look
up the name in the cache under the lock and return a clone of the cached
handle on a hit, with no network call; otherwise fall through to the request
path. -/
def ChromaClient.create_collection (self : ChromaClient) (name : String)
    (metadata : Option Metadata)
    (configuration : Option CreateCollectionConfiguration)
    (get_or_create : Bool) (net : NetOracle) :
    Outcome (Except ChromaError ChromaCollection × ChromaClient × List Request) :=
  if get_or_create then
    match self.collection_cache.lockUnwrap with
    | .fatal => .fatal
    | .ok cache =>
      match cache.lookup name with
      | some collection => .ok (.ok collection, self, [])
      | none => self.create_collection_request name metadata configuration get_or_create net
  else
    self.create_collection_request name metadata configuration get_or_create net

/-- `ChromaClient::get_or_create_collection`: delegates to `create_collection`
with `get_or_create = true`. -/
def ChromaClient.get_or_create_collection (self : ChromaClient) (name : String)
    (metadata : Option Metadata)
    (configuration : Option CreateCollectionConfiguration) (net : NetOracle) :
    Outcome (Except ChromaError ChromaCollection × ChromaClient × List Request) :=
  self.create_collection name metadata configuration true net

/-- `ChromaClient::list_collections`: issue the scoped list request, decode,
and rewire every element's transport reference; no cache interaction. -/
def ChromaClient.list_collections (self : ChromaClient) (net : NetOracle) :
    Outcome (Except ChromaError (List ChromaCollection) × ChromaClient × List Request) :=
  match net.getDatabaseList "/collections" with
  | .error e => .ok (.error e, self, [Request.getDatabase "/collections"])
  | .ok collections =>
    .ok (.ok (collections.map (fun collection => { collection with api := self.api })),
         self, [Request.getDatabase "/collections"])

/-- `ChromaClient::get_collection`: issue the scoped get-by-name request,
decode, and rewire the transport reference; no cache interaction. -/
def ChromaClient.get_collection (self : ChromaClient) (name : String)
    (net : NetOracle) :
    Outcome (Except ChromaError ChromaCollection × ChromaClient × List Request) :=
  match net.getDatabaseOne ("/collections/" ++ name) with
  | .error e => .ok (.error e, self, [Request.getDatabase ("/collections/" ++ name)])
  | .ok decoded =>
    .ok (.ok { decoded with api := self.api }, self,
         [Request.getDatabase ("/collections/" ++ name)])

/-- `ChromaClient::delete_collection`: issue the scoped delete request; the
cache is not consulted and not invalidated. -/
def ChromaClient.delete_collection (self : ChromaClient) (name : String)
    (net : NetOracle) :
    Outcome (Except ChromaError Unit × ChromaClient × List Request) :=
  match net.deleteDatabase ("/collections/" ++ name) with
  | .error e => .ok (.error e, self, [Request.deleteDatabase ("/collections/" ++ name)])
  | .ok _ => .ok (.ok (), self, [Request.deleteDatabase ("/collections/" ++ name)])

/-- `ChromaClient::heartbeat`: decode the heartbeat envelope and return its
single field unchanged. -/
def ChromaClient.heartbeat (self : ChromaClient) (net : NetOracle) :
    Outcome (Except ChromaError Nat × ChromaClient × List Request) :=
  match net.getHeartbeat "/heartbeat" with
  | .error e => .ok (.error e, self, [Request.get "/heartbeat"])
  | .ok json => .ok (.ok json.heartbeat, self, [Request.get "/heartbeat"])

/-- The caller-observable part of an outcome: result and requests issued,
with the client state dropped. -/
def obsOf {α : Type} (o : Outcome (α × ChromaClient × List Request)) :
    Outcome (α × List Request) :=
  match o with
  | .fatal => .fatal
  | .ok (r, _, tr) => .ok (r, tr)

/-- The session cache invariant: no two entries share a name, and every
cached handle's transport reference equals the session's own shared
transport. -/
def cacheInv (c : ChromaClient) : Prop :=
  (c.collection_cache.value.map Prod.fst).Nodup ∧
  ∀ p ∈ c.collection_cache.value, p.2.api = c.api

instance (c : ChromaClient) : Decidable (cacheInv c) := by
  unfold cacheInv
  infer_instance

/-! ### Concrete fixtures, used to evaluate the theorems on closed inputs -/

/-- A concrete transport client. -/
def apiFix : APIClientAsync :=
  { endpoint := "http://localhost:8000", auth := .none,
    tenant := "default_tenant", database := "default_database",
    connections := 4 }

/-- A concrete collection handle named "alpha". -/
def colFix : ChromaCollection :=
  { name := "alpha", id := "id-1", metadata := Option.none,
    configuration := [], api := apiFix }

/-- A client whose cache already holds "alpha". -/
def clientFix : ChromaClient :=
  { api := apiFix,
    collection_cache := { poisoned := false, value := [("alpha", colFix)] } }

/-- A client with an empty, unpoisoned cache. -/
def clientEmpty : ChromaClient :=
  { api := apiFix, collection_cache := { poisoned := false, value := [] } }

/-- A client whose cache mutex is poisoned. -/
def clientPoisoned : ChromaClient :=
  { api := apiFix, collection_cache := { poisoned := true, value := [] } }

/-- A network oracle answering every request successfully; the create and get
responses decode to the handle named "alpha", and the heartbeat envelope
carries the value 0. -/
def netFix : NetOracle :=
  { postDatabase := fun _ _ => .ok colFix,
    getDatabaseList := fun _ => .ok [colFix],
    getDatabaseOne := fun _ => .ok colFix,
    deleteDatabase := fun _ => .ok (),
    getHeartbeat := fun _ => .ok { heartbeat := 0 } }

/-- A configuration value whose translation fails. -/
def cfgBad : CreateCollectionConfiguration :=
  { translation := .error (.configurationError "invalid") }

/-! ### Helper lemmas -/

/-- A successful `lockUnwrap` means the mutex is not poisoned and yields the
guarded value. -/
theorem lockUnwrap_ok {α : Type} (m : MutexState α) (v : α)
    (h : m.lockUnwrap = .ok v) : m.poisoned = false ∧ v = m.value := by
  unfold MutexState.lockUnwrap at h
  by_cases hp : m.poisoned = true
  · simp [hp] at h
  · simp at hp
    simp [hp] at h
    exact ⟨hp, h.symm⟩

/-- A key that `lookup` does not find is not among the keys. -/
theorem lookup_none_not_mem (l : List (String × ChromaCollection)) (name : String)
    (h : l.lookup name = none) : name ∉ l.map Prod.fst := by
  induction l with
  | nil => simp
  | cons hd tl ih =>
    rw [List.lookup] at h
    cases hbeq : name == hd.fst with
    | true => rw [hbeq] at h; cases h
    | false =>
      rw [hbeq] at h
      simp only [List.map_cons, List.mem_cons]
      intro hc
      rcases hc with hc | hc
      · rw [hc] at hbeq
        simp at hbeq
      · exact ih h hc

/-- Looking up the key just inserted by `entryOrInsert` on a miss yields the
inserted handle. -/
theorem lookup_entryOrInsert_self (cache : List (String × ChromaCollection))
    (name : String) (collection : ChromaCollection)
    (h : cache.lookup name = none) :
    (entryOrInsert cache name collection).lookup name = some collection := by
  unfold entryOrInsert
  rw [h, List.lookup]
  simp

/-- Cache hit under `get_or_create`: the cached handle is returned, the state
is unchanged, and no request is issued. -/
theorem create_collection_hit (self : ChromaClient) (name : String)
    (m : Option Metadata) (cfg : Option CreateCollectionConfiguration)
    (net : NetOracle) (col : ChromaCollection)
    (hp : self.collection_cache.poisoned = false)
    (hhit : self.collection_cache.value.lookup name = some col) :
    self.create_collection name m cfg true net = .ok (.ok col, self, []) := by
  simp [ChromaClient.create_collection, MutexState.lockUnwrap, hp, hhit]

/-- Cache miss under `get_or_create`: `create_collection` reduces to the
request path. -/
theorem create_collection_true_miss (self : ChromaClient) (name : String)
    (m : Option Metadata) (cfg : Option CreateCollectionConfiguration)
    (net : NetOracle)
    (hp : self.collection_cache.poisoned = false)
    (hmiss : self.collection_cache.value.lookup name = none) :
    self.create_collection name m cfg true net =
      self.create_collection_request name m cfg true net := by
  simp [ChromaClient.create_collection, MutexState.lockUnwrap, hp, hmiss]

/-- Characterization of the successful request path: the returned handle is
built from this response with the transport reference rewired, and the cache
is updated by insert-if-absent. -/
theorem create_collection_request_ok (self : ChromaClient) (name : String)
    (m : Option Metadata) (cfg : Option CreateCollectionConfiguration)
    (goc : Bool) (net : NetOracle) (config : ConfigurationMap)
    (decoded : ChromaCollection)
    (hp : self.collection_cache.poisoned = false)
    (hcfg : translateConfiguration cfg = .ok config)
    (hnet : net.postDatabase "/collections"
        { name := name, metadata := m, get_or_create := goc,
          configuration := config } = .ok decoded) :
    self.create_collection_request name m cfg goc net =
      .ok (.ok { decoded with api := self.api },
           { self with collection_cache :=
               { self.collection_cache with
                 value := entryOrInsert self.collection_cache.value name
                   { decoded with api := self.api } } },
           [Request.postDatabase "/collections"
              { name := name, metadata := m, get_or_create := goc,
                configuration := config }]) := by
  simp [ChromaClient.create_collection_request, hcfg, hnet,
        MutexState.lockUnwrap, hp]

/-- Inversion for the request path: any normal return is either an error with
the state untouched, or the successful insert-if-absent outcome with the lock
unpoisoned. -/
theorem create_collection_request_inv (self : ChromaClient) (name : String)
    (m : Option Metadata) (cfg : Option CreateCollectionConfiguration)
    (goc : Bool) (net : NetOracle)
    (r : Except ChromaError ChromaCollection) (st : ChromaClient)
    (tr : List Request)
    (h : self.create_collection_request name m cfg goc net = .ok (r, st, tr)) :
    (st = self ∧ ∃ e, r = .error e) ∨
    (∃ config decoded,
       translateConfiguration cfg = .ok config ∧
       net.postDatabase "/collections"
         { name := name, metadata := m, get_or_create := goc,
           configuration := config } = .ok decoded ∧
       self.collection_cache.poisoned = false ∧
       r = .ok { decoded with api := self.api } ∧
       st = { self with collection_cache :=
                { self.collection_cache with
                  value := entryOrInsert self.collection_cache.value name
                    { decoded with api := self.api } } }) := by
  simp only [ChromaClient.create_collection_request] at h
  split at h
  · cases h
    exact Or.inl ⟨rfl, _, rfl⟩
  · rename_i config hcfg
    split at h
    · cases h
      exact Or.inl ⟨rfl, _, rfl⟩
    · rename_i decoded hnet
      split at h
      · cases h
      · rename_i cache hlock
        obtain ⟨hp, hv⟩ := lockUnwrap_ok _ _ hlock
        cases h
        exact Or.inr ⟨config, decoded, hcfg, hnet, hp, rfl, by rw [hv]⟩

/-- State shape of a normal return of the request path: unchanged, or the
insert-if-absent update with a handle wired to the session's transport. -/
theorem create_collection_request_state (self : ChromaClient) (name : String)
    (m : Option Metadata) (cfg : Option CreateCollectionConfiguration)
    (goc : Bool) (net : NetOracle)
    (r : Except ChromaError ChromaCollection) (st : ChromaClient)
    (tr : List Request)
    (h : self.create_collection_request name m cfg goc net = .ok (r, st, tr)) :
    st = self ∨
    ∃ col : ChromaCollection, col.api = self.api ∧
      st = { self with collection_cache :=
               { self.collection_cache with
                 value := entryOrInsert self.collection_cache.value name col } } := by
  rcases create_collection_request_inv self name m cfg goc net r st tr h with
    ⟨hst, _⟩ | ⟨config, decoded, _, _, _, _, hst⟩
  · exact Or.inl hst
  · exact Or.inr ⟨{ decoded with api := self.api }, rfl, hst⟩

/-- State shape of a normal return of `create_collection`: unchanged, or the
insert-if-absent update with a handle wired to the session's transport. -/
theorem create_collection_inv (self : ChromaClient) (name : String)
    (m : Option Metadata) (cfg : Option CreateCollectionConfiguration)
    (goc : Bool) (net : NetOracle)
    (r : Except ChromaError ChromaCollection) (st : ChromaClient)
    (tr : List Request)
    (h : self.create_collection name m cfg goc net = .ok (r, st, tr)) :
    st = self ∨
    ∃ col : ChromaCollection, col.api = self.api ∧
      st = { self with collection_cache :=
               { self.collection_cache with
                 value := entryOrInsert self.collection_cache.value name col } } := by
  cases goc with
  | false =>
    have h' : self.create_collection_request name m cfg false net =
        .ok (r, st, tr) := by
      simpa only [ChromaClient.create_collection, Bool.false_eq_true,
        if_false] using h
    exact create_collection_request_state self name m cfg false net r st tr h'
  | true =>
    cases hp : self.collection_cache.poisoned with
    | true =>
      have hf : self.create_collection name m cfg true net = .fatal := by
        simp [ChromaClient.create_collection, MutexState.lockUnwrap, hp]
      rw [hf] at h
      exact Outcome.noConfusion h
    | false =>
      cases hcase : self.collection_cache.value.lookup name with
      | some col =>
        rw [create_collection_hit self name m cfg net col hp hcase] at h
        simp only [Outcome.ok.injEq, Prod.mk.injEq] at h
        exact Or.inl h.2.1.symm
      | none =>
        rw [create_collection_true_miss self name m cfg net hp hcase] at h
        exact create_collection_request_state self name m cfg true net r st tr h

/-- Inserting a handle wired to the session's transport via `entryOrInsert`
preserves the cache invariant. -/
theorem cacheInv_entryOrInsert (self : ChromaClient) (name : String)
    (col : ChromaCollection) (hinv : cacheInv self) (hapi : col.api = self.api) :
    cacheInv { self with collection_cache :=
      { self.collection_cache with
        value := entryOrInsert self.collection_cache.value name col } } := by
  obtain ⟨hnd, hall⟩ := hinv
  unfold cacheInv
  constructor
  · show ((entryOrInsert self.collection_cache.value name col).map Prod.fst).Nodup
    unfold entryOrInsert
    cases hcase : self.collection_cache.value.lookup name with
    | some old => exact hnd
    | none =>
      simp only [List.map_cons, List.nodup_cons]
      exact ⟨lookup_none_not_mem _ _ hcase, hnd⟩
  · show ∀ p ∈ entryOrInsert self.collection_cache.value name col,
      p.2.api = self.api
    unfold entryOrInsert
    cases hcase : self.collection_cache.value.lookup name with
    | some old => exact hall
    | none =>
      intro p hp
      rcases List.mem_cons.mp hp with hp | hp
      · rw [hp]; exact hapi
      · exact hall p hp

/-! ### Claim theorems -/

/-- C4: for every name, metadata, configuration, state and oracle,
`get_or_create_collection(name, metadata, configuration)` is exactly
`create_collection(name, metadata, configuration, get_or_create = true)`:
identical result, identical cache-state effect, identical requests. -/
theorem getOrCreate_eq_create_true (self : ChromaClient) (name : String)
    (metadata : Option Metadata)
    (configuration : Option CreateCollectionConfiguration) (net : NetOracle) :
    self.get_or_create_collection name metadata configuration net =
      self.create_collection name metadata configuration true net := rfl

/-- C7: at construction the endpoint is resolved in strict priority order: an
explicit url wins over everything; otherwise `CHROMA_HOST` if set; otherwise
`CHROMA_URL` if set; otherwise the hardcoded default
`http://localhost:8000`. -/
theorem endpoint_resolution (o : ChromaClientOptions) (env : Env) :
    (∀ u, o.url = some u → (ChromaClient.new o env).api.endpoint = u) ∧
    (o.url = Option.none →
      ∀ h, env.var "CHROMA_HOST" = some h →
        (ChromaClient.new o env).api.endpoint = h) ∧
    (o.url = Option.none → env.var "CHROMA_HOST" = Option.none →
      ∀ u, env.var "CHROMA_URL" = some u →
        (ChromaClient.new o env).api.endpoint = u) ∧
    (o.url = Option.none → env.var "CHROMA_HOST" = Option.none →
      env.var "CHROMA_URL" = Option.none →
        (ChromaClient.new o env).api.endpoint = DEFAULT_ENDPOINT) := by
  refine ⟨?_, ?_, ?_, ?_⟩
  · intro u hu
    simp [ChromaClient.new, resolveEndpoint, hu]
  · intro hu h hh
    simp [ChromaClient.new, resolveEndpoint, hu, hh]
  · intro hu hh u hurl
    simp [ChromaClient.new, resolveEndpoint, hu, hh, hurl]
  · intro hu hh hurl
    simp [ChromaClient.new, resolveEndpoint, hu, hh, hurl]

/-- Witness for C7: with no explicit url, `CHROMA_HOST` set to
"http://host:9" wins over a set `CHROMA_URL`. -/
theorem endpoint_resolution_witness :
    (ChromaClient.new ChromaClientOptions.default
        { var := fun n => if n == "CHROMA_HOST" then some "http://host:9"
                          else if n == "CHROMA_URL" then some "http://url:7"
                          else Option.none }).api.endpoint = "http://host:9" :=
  (endpoint_resolution ChromaClientOptions.default
      { var := fun n => if n == "CHROMA_HOST" then some "http://host:9"
                        else if n == "CHROMA_URL" then some "http://url:7"
                        else Option.none }).2.1 rfl "http://host:9" (by decide)

/-- C10: on a cache hit under `get_or_create`, the metadata and configuration
arguments are ignored: for every configuration value, including one whose
translation fails, the call succeeds with the cached handle, unchanged state
and no request, and no configuration error is ever raised on this path. -/
theorem cache_hit_ignores_configuration (self : ChromaClient) (name : String)
    (net : NetOracle) (col : ChromaCollection)
    (hp : self.collection_cache.poisoned = false)
    (hhit : self.collection_cache.value.lookup name = some col) :
    ∀ (m : Option Metadata) (cfg : Option CreateCollectionConfiguration),
      self.create_collection name m cfg true net = .ok (.ok col, self, []) :=
  fun m cfg => create_collection_hit self name m cfg net col hp hhit

/-- Witness for C10: a cache hit with a configuration whose translation
fails still returns the cached handle with no request. -/
theorem cache_hit_ignores_configuration_witness :
    clientFix.create_collection "alpha" Option.none (some cfgBad) true netFix =
      .ok (.ok colFix, clientFix, []) :=
  cache_hit_ignores_configuration clientFix "alpha" netFix colFix rfl
    (by decide) Option.none (some cfgBad)

/-- C9 counterexample: a successfully decoded heartbeat envelope whose field
is 0 makes `heartbeat()` return 0, which is not strictly positive — the
code passes the decoded value through without enforcing positivity. -/
theorem heartbeat_zero_counterexample :
    clientEmpty.heartbeat netFix =
      .ok (.ok 0, clientEmpty, [Request.get "/heartbeat"]) ∧
    ¬ (0 : Nat) > 0 :=
  ⟨rfl, by decide⟩

/-- C9 (amended): `heartbeat()` returns exactly the decoded nanosecond field
of a successfully decoded heartbeat response; in particular the returned
value is strictly positive whenever that field is strictly positive. -/
theorem heartbeat_returns_decoded (self : ChromaClient) (net : NetOracle)
    (r : HeartbeatResponse)
    (h : net.getHeartbeat "/heartbeat" = Except.ok r) :
    self.heartbeat net =
      .ok (.ok r.heartbeat, self, [Request.get "/heartbeat"]) ∧
    (0 < r.heartbeat →
      ∃ v, self.heartbeat net = .ok (.ok v, self, [Request.get "/heartbeat"]) ∧
        0 < v) := by
  have hrun : self.heartbeat net =
      .ok (.ok r.heartbeat, self, [Request.get "/heartbeat"]) := by
    simp [ChromaClient.heartbeat, h]
  exact ⟨hrun, fun hpos => ⟨r.heartbeat, hrun, hpos⟩⟩

/-- Witness for C9 (amended): with an envelope carrying 42, `heartbeat()`
returns 42. -/
theorem heartbeat_returns_decoded_witness :
    clientEmpty.heartbeat
        { netFix with getHeartbeat := fun _ => .ok { heartbeat := 42 } } =
      .ok (.ok 42, clientEmpty, [Request.get "/heartbeat"]) :=
  (heartbeat_returns_decoded clientEmpty
      { netFix with getHeartbeat := fun _ => .ok { heartbeat := 42 } }
      { heartbeat := 42 } rfl).1

/-- C1: a name present in the session cache makes
`create_collection(name, _, _, get_or_create = true)` return the cached
handle with no request and unchanged state; and after any successful
`get_or_create_collection`, a second one returns the very same handle (hence
the same name and identifier) and issues no request. -/
theorem getOrCreate_cache_hit_idempotent (self : ChromaClient) (name : String)
    (m m2 : Option Metadata) (cfg cfg2 : Option CreateCollectionConfiguration)
    (net net2 : NetOracle)
    (hp : self.collection_cache.poisoned = false) :
    (∀ col, self.collection_cache.value.lookup name = some col →
        self.create_collection name m cfg true net = .ok (.ok col, self, [])) ∧
    (∀ c1 st1 tr1,
        self.get_or_create_collection name m cfg net = .ok (.ok c1, st1, tr1) →
        st1.get_or_create_collection name m2 cfg2 net2 = .ok (.ok c1, st1, [])) := by
  constructor
  · intro col hcol
    exact create_collection_hit self name m cfg net col hp hcol
  · intro c1 st1 tr1 h
    rw [ChromaClient.get_or_create_collection] at h ⊢
    cases hcase : self.collection_cache.value.lookup name with
    | some col =>
      rw [create_collection_hit self name m cfg net col hp hcase] at h
      simp only [Outcome.ok.injEq, Prod.mk.injEq, Except.ok.injEq] at h
      obtain ⟨hc, hst, htr⟩ := h
      subst hst
      rw [← hc]
      exact create_collection_hit _ name m2 cfg2 net2 col hp hcase
    | none =>
      rw [create_collection_true_miss self name m cfg net hp hcase] at h
      rcases create_collection_request_inv self name m cfg true net _ st1 tr1 h with
        ⟨hst, e, he⟩ | ⟨config, decoded, hcfg, hnet, hp2, hr, hst⟩
      · simp at he
      · simp only [Except.ok.injEq] at hr
        subst hr
        subst hst
        exact create_collection_hit _ name m2 cfg2 net2 _ hp
          (lookup_entryOrInsert_self self.collection_cache.value name
            { decoded with api := self.api } hcase)

/-- Witness for C1: a first `get_or_create_collection` on an empty cache
creates and caches "alpha"; the second call returns the same handle with no
request. -/
theorem getOrCreate_cache_hit_idempotent_witness :
    clientFix.get_or_create_collection "alpha" Option.none Option.none netFix =
      .ok (.ok colFix, clientFix, []) :=
  (getOrCreate_cache_hit_idempotent clientEmpty "alpha" Option.none Option.none
      Option.none Option.none netFix netFix rfl).2 colFix clientFix
      [Request.postDatabase "/collections"
        { name := "alpha", metadata := Option.none, get_or_create := true,
          configuration := [] }]
      (by decide)

/-- C2: when `create_collection` reaches the post-request insertion step, the
cache is updated by insert-only-if-absent — an existing entry for the name is
left unchanged — and the caller receives the handle built from this very
response, never the previously cached copy. -/
theorem create_insert_if_absent (self : ChromaClient) (name : String)
    (m : Option Metadata) (cfg : Option CreateCollectionConfiguration)
    (goc : Bool) (net : NetOracle) (config : ConfigurationMap)
    (decoded : ChromaCollection)
    (hp : self.collection_cache.poisoned = false)
    (hreach : goc = false ∨ self.collection_cache.value.lookup name = Option.none)
    (hcfg : translateConfiguration cfg = .ok config)
    (hnet : net.postDatabase "/collections"
        { name := name, metadata := m, get_or_create := goc,
          configuration := config } = .ok decoded) :
    self.create_collection name m cfg goc net =
      .ok (.ok { decoded with api := self.api },
           { self with collection_cache :=
               { self.collection_cache with
                 value := entryOrInsert self.collection_cache.value name
                   { decoded with api := self.api } } },
           [Request.postDatabase "/collections"
              { name := name, metadata := m, get_or_create := goc,
                configuration := config }]) ∧
    (∀ old, self.collection_cache.value.lookup name = some old →
        entryOrInsert self.collection_cache.value name
          { decoded with api := self.api } = self.collection_cache.value) := by
  have hreq := create_collection_request_ok self name m cfg goc net config
    decoded hp hcfg hnet
  constructor
  · cases goc with
    | false =>
      simp only [ChromaClient.create_collection, Bool.false_eq_true, if_false]
      exact hreq
    | true =>
      rcases hreach with hg | hmiss
      · simp at hg
      · rw [create_collection_true_miss self name m cfg net hp hmiss]
        exact hreq
  · intro old hold
    unfold entryOrInsert
    rw [hold]

/-- Witness for C2: creating "alpha" with `get_or_create = false` on an empty
cache returns the handle built from the response and caches it. -/
theorem create_insert_if_absent_witness :
    clientEmpty.create_collection "alpha" Option.none Option.none false netFix =
      .ok (.ok colFix, clientFix,
           [Request.postDatabase "/collections"
              { name := "alpha", metadata := Option.none,
                get_or_create := false, configuration := [] }]) ∧
    (∀ old, clientEmpty.collection_cache.value.lookup "alpha" = some old →
        entryOrInsert clientEmpty.collection_cache.value "alpha" colFix =
          clientEmpty.collection_cache.value) :=
  create_insert_if_absent clientEmpty "alpha" Option.none Option.none false
    netFix [] colFix rfl (Or.inl rfl) rfl rfl

/-- C5: `delete_collection` never touches the cache — the state after any
return equals the state before — and a subsequent
`create_collection(name, _, _, get_or_create = true)` in the same session
still returns the stale cached handle with no request. -/
theorem delete_preserves_cache (self : ChromaClient) (name : String)
    (net net2 : NetOracle) (m : Option Metadata)
    (cfg : Option CreateCollectionConfiguration)
    (hp : self.collection_cache.poisoned = false) :
    (∀ r st tr, self.delete_collection name net = .ok (r, st, tr) → st = self) ∧
    (∀ col, self.collection_cache.value.lookup name = some col →
      ∀ st tr, self.delete_collection name net = .ok (.ok (), st, tr) →
        st.create_collection name m cfg true net2 = .ok (.ok col, st, [])) := by
  have hstate : ∀ r st tr, self.delete_collection name net = .ok (r, st, tr) →
      st = self := by
    intro r st tr h
    unfold ChromaClient.delete_collection at h
    split at h <;>
      (simp only [Outcome.ok.injEq, Prod.mk.injEq] at h; exact h.2.1.symm)
  refine ⟨hstate, ?_⟩
  intro col hcol st tr h
  have hst := hstate (.ok ()) st tr h
  subst hst
  exact create_collection_hit _ name m cfg net2 col hp hcol

/-- Witness for C5: deleting "alpha" leaves the cache untouched, and the
following get-or-create returns the stale handle with no request. -/
theorem delete_preserves_cache_witness :
    clientFix.create_collection "alpha" (some [("k", "v")]) Option.none true
        netFix = .ok (.ok colFix, clientFix, []) :=
  (delete_preserves_cache clientFix "alpha" netFix netFix (some [("k", "v")])
      Option.none rfl).2 colFix (by decide) clientFix
      [Request.deleteDatabase "/collections/alpha"] (by decide)

/-- C8: with the cache mutex poisoned, every lock acquisition in
`create_collection` aborts: the `get_or_create` lookup aborts immediately,
the post-request insertion aborts, and no normal return ever carries a
successful result or a changed state. -/
theorem poisoned_lock_fatal (self : ChromaClient) (name : String)
    (m : Option Metadata) (cfg : Option CreateCollectionConfiguration)
    (goc : Bool) (net : NetOracle)
    (hp : self.collection_cache.poisoned = true) :
    (goc = true → self.create_collection name m cfg goc net = .fatal) ∧
    (∀ config decoded,
        translateConfiguration cfg = .ok config →
        net.postDatabase "/collections"
          { name := name, metadata := m, get_or_create := goc,
            configuration := config } = .ok decoded →
        self.create_collection name m cfg goc net = .fatal) ∧
    (∀ r st tr, self.create_collection name m cfg goc net = .ok (r, st, tr) →
        (∃ e, r = .error e) ∧ st = self) := by
  have hfatal : goc = true → self.create_collection name m cfg goc net = .fatal := by
    intro hg; subst hg
    simp [ChromaClient.create_collection, MutexState.lockUnwrap, hp]
  refine ⟨hfatal, ?_, ?_⟩
  · intro config decoded hcfg hnet
    cases goc with
    | true => exact hfatal rfl
    | false =>
      simp [ChromaClient.create_collection, ChromaClient.create_collection_request,
            hcfg, hnet, MutexState.lockUnwrap, hp]
  · intro r st tr h
    cases goc with
    | true =>
      rw [hfatal rfl] at h
      exact Outcome.noConfusion h
    | false =>
      have h' : self.create_collection_request name m cfg false net =
          .ok (r, st, tr) := by
        simpa only [ChromaClient.create_collection, Bool.false_eq_true,
          if_false] using h
      rcases create_collection_request_inv self name m cfg false net r st tr h' with
        ⟨hst, e, he⟩ | ⟨config, decoded, _, _, hp2, _, _⟩
      · exact ⟨⟨e, he⟩, hst⟩
      · rw [hp] at hp2
        exact Bool.noConfusion hp2

/-- Witness for C8: a poisoned client aborts on `get_or_create`. -/
theorem poisoned_lock_fatal_witness :
    clientPoisoned.create_collection "alpha" Option.none Option.none true
      netFix = .fatal :=
  (poisoned_lock_fatal clientPoisoned "alpha" Option.none Option.none true
      netFix rfl).1 rfl

/-- C3: the cache invariant — no two entries for the same name, and every
cached handle's transport reference equals the session's own — holds of a
freshly constructed client and is preserved, along with the session transport
itself, by every collection lifecycle operation. -/
theorem cache_invariant_preserved (o : ChromaClientOptions) (env : Env)
    (self : ChromaClient) (name : String) (m : Option Metadata)
    (cfg : Option CreateCollectionConfiguration) (goc : Bool) (net : NetOracle)
    (hinv : cacheInv self) :
    cacheInv (ChromaClient.new o env) ∧
    (∀ r st tr, self.create_collection name m cfg goc net = .ok (r, st, tr) →
        st.api = self.api ∧ cacheInv st) ∧
    (∀ r st tr,
        self.get_or_create_collection name m cfg net = .ok (r, st, tr) →
        st.api = self.api ∧ cacheInv st) ∧
    (∀ r st tr, self.list_collections net = .ok (r, st, tr) →
        st.api = self.api ∧ cacheInv st) ∧
    (∀ r st tr, self.get_collection name net = .ok (r, st, tr) →
        st.api = self.api ∧ cacheInv st) ∧
    (∀ r st tr, self.delete_collection name net = .ok (r, st, tr) →
        st.api = self.api ∧ cacheInv st) := by
  have hcreate : ∀ (g : Bool) r st tr,
      self.create_collection name m cfg g net = .ok (r, st, tr) →
      st.api = self.api ∧ cacheInv st := by
    intro g r st tr h
    rcases create_collection_inv self name m cfg g net r st tr h with
      hst | ⟨col, hapi, hst⟩
    · subst hst; exact ⟨rfl, hinv⟩
    · subst hst
      exact ⟨rfl, cacheInv_entryOrInsert self name col hinv hapi⟩
  refine ⟨?_, hcreate goc, ?_, ?_, ?_, ?_⟩
  · constructor
    · simp [ChromaClient.new]
    · intro p hp
      simp [ChromaClient.new] at hp
  · intro r st tr h
    exact hcreate true r st tr h
  · intro r st tr h
    unfold ChromaClient.list_collections at h
    split at h <;>
      · simp only [Outcome.ok.injEq, Prod.mk.injEq] at h
        obtain ⟨-, hst, -⟩ := h
        rw [← hst]
        exact ⟨rfl, hinv⟩
  · intro r st tr h
    unfold ChromaClient.get_collection at h
    split at h <;>
      · simp only [Outcome.ok.injEq, Prod.mk.injEq] at h
        obtain ⟨-, hst, -⟩ := h
        rw [← hst]
        exact ⟨rfl, hinv⟩
  · intro r st tr h
    unfold ChromaClient.delete_collection at h
    split at h <;>
      · simp only [Outcome.ok.injEq, Prod.mk.injEq] at h
        obtain ⟨-, hst, -⟩ := h
        rw [← hst]
        exact ⟨rfl, hinv⟩

/-- Witness for C3: creating "alpha" on an empty cache yields a cached state
that still satisfies the invariant under the same transport. -/
theorem cache_invariant_preserved_witness :
    clientFix.api = clientEmpty.api ∧ cacheInv clientFix :=
  (cache_invariant_preserved ChromaClientOptions.default
      { var := fun _ => Option.none } clientEmpty "alpha" Option.none
      Option.none true netFix (by decide)).2.1 (.ok colFix) clientFix
      [Request.postDatabase "/collections"
        { name := "alpha", metadata := Option.none, get_or_create := true,
          configuration := [] }]
      (by decide)

/-- C6: `list_collections` and `get_collection` never touch the cache: each
returns with the client state unchanged and exactly one network request
issued, and the result together with the requests issued is independent of
the cache contents. -/
theorem list_get_no_cache_interaction (self : ChromaClient) (name : String)
    (net : NetOracle)
    (mc : MutexState (List (String × ChromaCollection))) :
    (∃ r, self.list_collections net =
        .ok (r, self, [Request.getDatabase "/collections"])) ∧
    (∃ r, self.get_collection name net =
        .ok (r, self, [Request.getDatabase ("/collections/" ++ name)])) ∧
    obsOf ({ self with collection_cache := mc }.list_collections net) =
      obsOf (self.list_collections net) ∧
    obsOf ({ self with collection_cache := mc }.get_collection name net) =
      obsOf (self.get_collection name net) := by
  refine ⟨?_, ?_, ?_, ?_⟩
  · cases hnet : net.getDatabaseList "/collections" with
    | error e =>
      exact ⟨.error e, by simp [ChromaClient.list_collections, hnet]⟩
    | ok cs =>
      exact ⟨.ok (cs.map fun c => { c with api := self.api }),
        by simp [ChromaClient.list_collections, hnet]⟩
  · cases hnet : net.getDatabaseOne ("/collections/" ++ name) with
    | error e =>
      exact ⟨.error e, by simp [ChromaClient.get_collection, hnet]⟩
    | ok c =>
      exact ⟨.ok { c with api := self.api },
        by simp [ChromaClient.get_collection, hnet]⟩
  · cases hnet : net.getDatabaseList "/collections" <;>
      simp [ChromaClient.list_collections, obsOf, hnet]
  · cases hnet : net.getDatabaseOne ("/collections/" ++ name) <;>
      simp [ChromaClient.get_collection, obsOf, hnet]

end Chroma
